import Mathlib

/-!
Shallow embedding of the EdufleetV2 subscription entitlement engine
(`src/server/controllers/subscriptionController.ts`), the persona/user
delay helper (`getTeacherDataDelayDate`), and the job-application status
transition validator (`src/server/controllers/jobController.ts`).

Dates are modelled as integer milliseconds since the epoch; JavaScript
numbers as `Int`.  The `x || 0` truthiness coercion on numbers is modelled
by `jsOr0` (the identity on integers, since `0 || 0 = 0`), and `x || d` on
strings by `jsOrStr` (empty string is falsy).  Persistence is modelled by
explicit state passing: each endpoint returns its JSON payload together
with the saved user/store state.
-/

namespace EdufleetV2

def msPerHour : Int := 3600000

def msPerDay : Int := 86400000

/-- `status` of a subscription sub-document (`User.ts` schema enum). -/
inductive SubStatus
  | active
  | inactive
  | suspended
  | expired
  deriving DecidableEq, Repr

/-- The string stored in Mongo for each status, used in messages. -/
def SubStatus.str : SubStatus → String
  | .active => "active"
  | .inactive => "inactive"
  | .suspended => "suspended"
  | .expired => "expired"

/-- `paymentStatus` enum of the subscription sub-document. -/
inductive PayStatus
  | pending
  | completed
  | failed
  deriving DecidableEq, Repr

/-- `features` record of `SubscriptionPlan` (subscriptionPlanSchema). -/
structure PlanFeatures where
  maxListings : Int
  maxJobPosts : Int
  maxBrowsesPerMonth : Int
  dataDelayDays : Int
  teacherDataDelayDays : Int
  canAdvertiseVehicles : Bool
  instantVehicleAlerts : Bool
  instantJobAlerts : Bool
  priorityListings : Bool
  analytics : Bool
  deriving DecidableEq, Repr

/-- A `SubscriptionPlan` document; `id` stands for the Mongo `_id`. -/
structure Plan where
  id : Nat
  name : String
  displayName : String
  planType : String
  price : Int
  duration : Int
  features : PlanFeatures
  isActive : Bool
  deriving DecidableEq, Repr

/-- The mongoose validators of `subscriptionPlanSchema`: `price` has
`min: 0`, `duration` has `min: 1`, `features.maxListings` and
`features.maxBrowsesPerMonth` have `min: 0`.  `maxJobPosts`,
`dataDelayDays` and `teacherDataDelayDays` carry no `min` validator. -/
def planSchemaValid (p : Plan) : Prop :=
  0 ≤ p.price ∧ 1 ≤ p.duration ∧
    0 ≤ p.features.maxListings ∧ 0 ≤ p.features.maxBrowsesPerMonth

instance (p : Plan) : Decidable (planSchemaValid p) := by
  unfold planSchemaValid; infer_instance

/-- The embedded `subscription` sub-document of a user. -/
structure Subscription where
  planId : Nat
  status : SubStatus
  paymentStatus : PayStatus
  startDate : Int
  endDate : Int
  listingsUsed : Int
  listingsLimit : Int
  jobPostsUsed : Int
  jobPostsLimit : Int
  browseCount : Int
  browseCountLimit : Int
  lastBrowseReset : Int
  notes : String
  deriving DecidableEq, Repr

/-- A user document, restricted to the fields the engine reads. -/
structure User where
  id : Nat
  role : String
  subscription : Option Subscription
  deriving DecidableEq, Repr

/-- `SubscriptionPlan.findById` over the stored plan set; also models
`populate('subscription.planId')` (a dangling reference populates to
`null`, i.e. `none`). -/
def findPlan (plans : List Plan) (pid : Nat) : Option Plan :=
  plans.find? (fun p => p.id == pid)

/-- JS `x || 0` on a number: `0` is falsy, every other number is itself. -/
def jsOr0 (x : Int) : Int :=
  if x = 0 then 0 else x

/-- JS `x || d` on a string: the empty string is falsy. -/
def jsOrStr (x : Option String) (d : String) : String :=
  match x with
  | none => d
  | some s => if s = "" then d else s

/-- JSON payload of the `check*Limit` endpoints (the `subscription` field
of the response is recovered from the returned user state). -/
structure LimitCheckResult where
  allowed : Bool
  remaining : Int
  limitReached : Bool
  message : Option String
  deriving DecidableEq, Repr

/-- JSON payload of the counter mutation endpoints. -/
structure MutationResult where
  success : Bool
  value : Option Int
  message : String
  deriving DecidableEq, Repr

/-- `checkAndResetBillingPeriod`: if 30 days have passed since
`lastBrowseReset`, zero the browse counter and stamp the reset time.
Returns the saved user and the `true`/`false` result. -/
def checkAndResetBillingPeriod (now : Int) (u : User) : User × Bool :=
  match u.subscription with
  | none => (u, false)
  | some s =>
    let daysSinceReset := (now - s.lastBrowseReset).fdiv msPerDay
    if 30 ≤ daysSinceReset then
      ({ u with
          subscription := some { s with browseCount := 0, lastBrowseReset := now } }, true)
    else
      (u, false)

/-- `checkBrowseLimit` endpoint body (after the user fetch). -/
def checkBrowseLimit (now : Int) (plans : List Plan) (u0 : User) :
    LimitCheckResult × User :=
  let u := (checkAndResetBillingPeriod now u0).1
  match u.subscription with
  | none =>
    ({ allowed := true, remaining := 10, limitReached := false,
       message := some "Using free plan limits" }, u)
  | some s =>
    match findPlan plans s.planId with
    | none =>
      ({ allowed := true, remaining := 10, limitReached := false,
         message := some "Using free plan limits" }, u)
    | some plan =>
      if s.status ≠ SubStatus.active then
        ({ allowed := false, remaining := 0, limitReached := true,
           message := some ("Subscription is " ++ s.status.str) }, u)
      else if s.endDate < now then
        ({ allowed := false, remaining := 0, limitReached := true,
           message := some "Subscription has expired" },
         { u with subscription := some { s with status := SubStatus.expired } })
      else
        let maxBrowses := jsOr0 plan.features.maxBrowsesPerMonth
        let used := jsOr0 s.browseCount
        let remaining := max 0 (maxBrowses - used)
        let limitReached : Bool := decide (remaining ≤ 0)
        ({ allowed := !limitReached, remaining := remaining,
           limitReached := limitReached,
           message := if limitReached then
             some ("Browse limit reached (" ++ toString maxBrowses ++ ")")
           else none }, u)

/-- `checkListingLimit` endpoint body (no billing-period reset here). -/
def checkListingLimit (now : Int) (plans : List Plan) (u : User) :
    LimitCheckResult × User :=
  match u.subscription with
  | none =>
    ({ allowed := false, remaining := 2, limitReached := true,
       message := some "No active subscription. Listing creation not allowed." }, u)
  | some s =>
    match findPlan plans s.planId with
    | none =>
      ({ allowed := false, remaining := 2, limitReached := true,
         message := some "No active subscription. Listing creation not allowed." }, u)
    | some plan =>
      if s.status ≠ SubStatus.active then
        ({ allowed := false, remaining := 0, limitReached := true,
           message := some ("Subscription is " ++ s.status.str ++
             ". Cannot create listings.") }, u)
      else if s.endDate < now then
        ({ allowed := false, remaining := 0, limitReached := true,
           message := some "Subscription has expired. Cannot create listings." },
         { u with subscription := some { s with status := SubStatus.expired } })
      else
        let maxListings := jsOr0 plan.features.maxListings
        let used := jsOr0 s.listingsUsed
        let remaining := max 0 (maxListings - used)
        let limitReached : Bool := decide (remaining ≤ 0)
        ({ allowed := !limitReached, remaining := remaining,
           limitReached := limitReached,
           message := if limitReached then
             some ("Listing limit reached (" ++ toString maxListings ++
               "). Please upgrade.")
           else none }, u)

/-- `checkJobPostLimit` endpoint body. -/
def checkJobPostLimit (now : Int) (plans : List Plan) (u : User) :
    LimitCheckResult × User :=
  match u.subscription with
  | none =>
    ({ allowed := false, remaining := 0, limitReached := true,
       message := some "No active subscription. Job posting not allowed." }, u)
  | some s =>
    match findPlan plans s.planId with
    | none =>
      ({ allowed := false, remaining := 0, limitReached := true,
         message := some "No active subscription. Job posting not allowed." }, u)
    | some plan =>
      if s.status ≠ SubStatus.active then
        ({ allowed := false, remaining := 0, limitReached := true,
           message := some ("Subscription is " ++ s.status.str ++
             ". Cannot post jobs.") }, u)
      else if s.endDate < now then
        ({ allowed := false, remaining := 0, limitReached := true,
           message := some "Subscription has expired. Cannot post jobs." },
         { u with subscription := some { s with status := SubStatus.expired } })
      else
        let maxJobPosts := jsOr0 plan.features.maxJobPosts
        let used := jsOr0 s.jobPostsUsed
        let remaining := max 0 (maxJobPosts - used)
        let limitReached : Bool := decide (remaining ≤ 0)
        ({ allowed := !limitReached, remaining := remaining,
           limitReached := limitReached,
           message := if limitReached then
             some ("Job post limit reached (" ++ toString maxJobPosts ++
               "). Please upgrade.")
           else none }, u)

/-- `incrementListingCount`: mutates only on an active subscription. -/
def incrementListingCount (u : User) : MutationResult × User :=
  match u.subscription with
  | none =>
    ({ success := false, value := none, message := "No active subscription" }, u)
  | some s =>
    if s.status ≠ SubStatus.active then
      ({ success := false, value := none, message := "No active subscription" }, u)
    else
      let n := jsOr0 s.listingsUsed + 1
      ({ success := true, value := some n, message := "Listing count incremented" },
       { u with subscription := some { s with listingsUsed := n } })

/-- `incrementJobPostCount`: mutates only on an active subscription. -/
def incrementJobPostCount (u : User) : MutationResult × User :=
  match u.subscription with
  | none =>
    ({ success := false, value := none, message := "No active subscription" }, u)
  | some s =>
    if s.status ≠ SubStatus.active then
      ({ success := false, value := none, message := "No active subscription" }, u)
    else
      let n := jsOr0 s.jobPostsUsed + 1
      ({ success := true, value := some n, message := "Job post count incremented" },
       { u with subscription := some { s with jobPostsUsed := n } })

/-- `incrementBrowseCount`: runs the billing-period reset first, then
mutates only on an active subscription. -/
def incrementBrowseCount (now : Int) (u0 : User) : MutationResult × User :=
  let u := (checkAndResetBillingPeriod now u0).1
  match u.subscription with
  | none =>
    ({ success := false, value := none, message := "No active subscription" }, u)
  | some s =>
    if s.status ≠ SubStatus.active then
      ({ success := false, value := none, message := "No active subscription" }, u)
    else
      let n := jsOr0 s.browseCount + 1
      ({ success := true, value := some n, message := "Browse count incremented" },
       { u with subscription := some { s with browseCount := n } })

/-- `decrementListingCount`: requires only that a subscription exist (no
status check); decrements when the counter is positive, otherwise leaves
it untouched, and reports success in both cases. -/
def decrementListingCount (u : User) : MutationResult × User :=
  match u.subscription with
  | none =>
    ({ success := false, value := none, message := "No subscription found" }, u)
  | some s =>
    if 0 < jsOr0 s.listingsUsed then
      let n := jsOr0 s.listingsUsed - 1
      ({ success := true, value := some n, message := "Listing count decremented" },
       { u with subscription := some { s with listingsUsed := n } })
    else
      ({ success := true, value := some s.listingsUsed,
         message := "Listing count decremented" }, u)

/-- `changePlan` (admin): binds the new plan, forces `status = active`,
derives `paymentStatus` from the price, re-stamps the period and
re-snapshots the three limit fields.  The usage counters are not
touched.  Returns `none` when the user has no subscription or the plan
is unresolved (the 404 branches). -/
def changePlan (now : Int) (plans : List Plan) (u : User) (pid : Nat)
    (notes : Option String) : Option User :=
  match u.subscription, findPlan plans pid with
  | some s, some plan =>
    some { u with subscription := some { s with
      planId := plan.id,
      status := SubStatus.active,
      paymentStatus := if 0 < plan.price then PayStatus.pending else PayStatus.completed,
      startDate := now,
      endDate := now + plan.duration * msPerDay,
      listingsLimit := plan.features.maxListings,
      jobPostsLimit := plan.features.maxJobPosts,
      browseCountLimit := plan.features.maxBrowsesPerMonth,
      notes := jsOrStr notes ("Plan changed by admin to " ++ plan.displayName) } }
  | _, _ => none

/-- `status` of a subscription change request. -/
inductive ReqStatus
  | pending
  | approved
  | rejected
  deriving DecidableEq, Repr

/-- A `SubscriptionRequest` document. -/
structure SubRequest where
  id : Nat
  userId : Nat
  currentPlanId : Nat
  requestedPlanId : Nat
  requestType : String
  status : ReqStatus
  userNotes : String
  adminNotes : String
  deriving DecidableEq, Repr

def findUser (users : List User) (uid : Nat) : Option User :=
  users.find? (fun u => u.id == uid)

/-- `user.save()` over the stored user set. -/
def saveUser (users : List User) (u : User) : List User :=
  users.map (fun v => if v.id == u.id then u else v)

def findRequest (reqs : List SubRequest) (rid : Nat) : Option SubRequest :=
  reqs.find? (fun r => r.id == rid)

/-- `request.save()` over the stored request set. -/
def saveRequest (reqs : List SubRequest) (r : SubRequest) : List SubRequest :=
  reqs.map (fun x => if x.id == r.id then r else x)

/-- `SubscriptionRequest.findOne with userId and status pending`. -/
def hasPendingRequest (reqs : List SubRequest) (uid : Nat) : Bool :=
  reqs.any (fun r => r.userId == uid && r.status == ReqStatus.pending)

inductive CreateReqError
  | userNotFound
  | planNotFound
  | duplicatePending
  deriving DecidableEq, Repr

/-- `createSubscriptionRequest`: rejects when a pending request already
exists for the user; otherwise stores a fresh pending request whose
`currentPlanId` falls back to the requested plan when the user has no
subscription. -/
def createSubscriptionRequest (users : List User) (plans : List Plan)
    (reqs : List SubRequest) (nextId uid requestedPlanId : Nat)
    (requestType userNotes : String) :
    Except CreateReqError (SubRequest × List SubRequest) :=
  match findUser users uid, findPlan plans requestedPlanId with
  | none, _ => Except.error CreateReqError.userNotFound
  | some _, none => Except.error CreateReqError.planNotFound
  | some user, some _ =>
    if hasPendingRequest reqs uid then
      Except.error CreateReqError.duplicatePending
    else
      let currentPlanId :=
        match user.subscription with
        | some s => s.planId
        | none => requestedPlanId
      let r : SubRequest :=
        { id := nextId, userId := uid, currentPlanId := currentPlanId,
          requestedPlanId := requestedPlanId, requestType := requestType,
          status := ReqStatus.pending, userNotes := userNotes, adminNotes := "" }
      Except.ok (r, reqs ++ [r])

inductive UpdateReqError
  | notFound
  | alreadyProcessed
  deriving DecidableEq, Repr

/-- The approval side effect of `updateSubscriptionRequest`: applies the
requested plan to the requester's subscription, re-snapshotting limits,
resetting all three usage counters to 0, re-stamping the period, forcing
`status = active`, deriving `paymentStatus` from the price and stamping
`lastBrowseReset`.  A user without a subscription is left unchanged. -/
def applyApprovedPlanChange (now : Int) (request : SubRequest)
    (adminNotes : String) (plan : Plan) (u : User) : User :=
  match u.subscription with
  | none => u
  | some s =>
    { u with subscription := some { s with
        planId := plan.id,
        listingsLimit := plan.features.maxListings,
        browseCountLimit := plan.features.maxBrowsesPerMonth,
        jobPostsLimit := plan.features.maxJobPosts,
        listingsUsed := 0,
        browseCount := 0,
        jobPostsUsed := 0,
        status := SubStatus.active,
        paymentStatus := if 0 < plan.price then PayStatus.pending else PayStatus.completed,
        startDate := now,
        endDate := now + plan.duration * msPerDay,
        notes := "Plan changed via request: " ++ request.requestType ++ ". " ++ adminNotes,
        lastBrowseReset := now } }

/-- `updateSubscriptionRequest`: flips a pending request to the given
status; on approval it additionally runs the plan change against the
requester (when the user and plan resolve).  Returns the saved request,
the user store and the request store. -/
def updateSubscriptionRequest (now : Int) (plans : List Plan)
    (users : List User) (reqs : List SubRequest) (rid : Nat)
    (newStatus : ReqStatus) (adminNotes : String) :
    Except UpdateReqError (SubRequest × List User × List SubRequest) :=
  match findRequest reqs rid with
  | none => Except.error UpdateReqError.notFound
  | some request =>
    if request.status ≠ ReqStatus.pending then
      Except.error UpdateReqError.alreadyProcessed
    else
      let updated := { request with status := newStatus, adminNotes := adminNotes }
      let users1 :=
        if newStatus = ReqStatus.approved then
          match findUser users request.userId, findPlan plans request.requestedPlanId with
          | some u, some plan =>
            saveUser users (applyApprovedPlanChange now updated adminNotes plan u)
          | _, _ => users
        else users
      Except.ok (updated, users1, saveRequest reqs updated)

/-- A patch body for `updatePlan` (`findByIdAndUpdate` with `$set`
semantics on the top-level fields; providing `features` replaces the
whole nested record). -/
structure PlanPatch where
  name : Option String := none
  displayName : Option String := none
  planType : Option String := none
  price : Option Int := none
  duration : Option Int := none
  features : Option PlanFeatures := none
  isActive : Option Bool := none
  deriving DecidableEq, Repr

def applyPlanPatch (p : Plan) (patch : PlanPatch) : Plan :=
  { p with
    name := patch.name.getD p.name,
    displayName := patch.displayName.getD p.displayName,
    planType := patch.planType.getD p.planType,
    price := patch.price.getD p.price,
    duration := patch.duration.getD p.duration,
    features := patch.features.getD p.features,
    isActive := patch.isActive.getD p.isActive }

/-- `updatePlan`: rewrites the stored plan document in place; `none`
models the 404 branch. -/
def updatePlan (plans : List Plan) (pid : Nat) (patch : PlanPatch) :
    Option (List Plan) :=
  match findPlan plans pid with
  | none => none
  | some _ => some (plans.map (fun p => if p.id == pid then applyPlanPatch p patch else p))

/-- JSON payload of `checkListingVisibility`. -/
structure VisibilityResult where
  visible : Bool
  delayHours : Int
  availableAt : Int
  deriving DecidableEq, Repr

/-- `checkListingVisibility` endpoint body: a flat 168-hour default for
viewers without a subscription (or with a dangling plan reference), an
unconditional `visible = false` with a 168-hour horizon for inactive
subscriptions, and `dataDelayDays * 24` hours for active ones.  No
admin or owner special case exists here. -/
def checkListingVisibility (now listingCreatedAt : Int) (plans : List Plan)
    (u : User) : VisibilityResult :=
  match u.subscription with
  | none =>
    let availableTime := listingCreatedAt + 168 * msPerHour
    { visible := decide (availableTime ≤ now), delayHours := 168,
      availableAt := availableTime }
  | some s =>
    match findPlan plans s.planId with
    | none =>
      let availableTime := listingCreatedAt + 168 * msPerHour
      { visible := decide (availableTime ≤ now), delayHours := 168,
        availableAt := availableTime }
    | some plan =>
      if s.status ≠ SubStatus.active then
        { visible := false, delayHours := 168,
          availableAt := now + 168 * msPerHour }
      else
        let delayHours :=
          if plan.features.dataDelayDays = 0 then 0
          else plan.features.dataDelayDays * 24
        let availableTime := listingCreatedAt + delayHours * msPerHour
        { visible := decide (availableTime ≤ now), delayHours := delayHours,
          availableAt := availableTime }

/-- `getTeacherDataDelayDate` (users controller): `none` for guests and
admins (no cutoff filter applied), otherwise a cutoff of
`now - teacherDataDelayDays` with a 15-day default when the viewer has
no resolvable plan; a zero delay also yields `none`. -/
def getTeacherDataDelayDate (now : Int) (viewer : Option User)
    (plans : List Plan) : Option Int :=
  match viewer with
  | none => none
  | some user =>
    if user.role = "admin" then none
    else
      let delayDays :=
        match user.subscription.bind (fun s => findPlan plans s.planId) with
        | some plan => plan.features.teacherDataDelayDays
        | none => 15
      if delayDays = 0 then none
      else some (now - delayDays * msPerDay)

/-- The six application statuses (`applicationSchema` enum). -/
def allStatuses : List String :=
  ["pending", "reviewed", "shortlisted", "interview_scheduled", "accepted", "rejected"]

/-- The `invalidTransitions` table of `validateStatusTransition`: only
`accepted` blocks anything, namely every earlier stage. -/
def invalidTransitions (currentStatus : String) : List String :=
  if currentStatus = "accepted" then
    ["pending", "reviewed", "shortlisted", "interview_scheduled"]
  else []

structure TransitionCheck where
  valid : Bool
  error : Option String
  deriving DecidableEq, Repr

/-- `validateStatusTransition` (job controller): reject unknown targets,
accept identity transitions, and otherwise reject exactly the
transitions blocked by `invalidTransitions`. -/
def validateStatusTransition (currentStatus newStatus : String) : TransitionCheck :=
  if newStatus ∉ allStatuses then
    { valid := false,
      error := some ("Invalid status: " ++ newStatus) }
  else if currentStatus = newStatus then
    { valid := true, error := none }
  else if newStatus ∈ invalidTransitions currentStatus then
    { valid := false,
      error := some ("Cannot change from " ++ currentStatus ++ " to " ++ newStatus) }
  else
    { valid := true, error := none }

/-- One call to a counter mutation endpoint (Usage Ledger). -/
inductive CounterOp
  | incListing
  | decListing
  | incJobPost
  | incBrowse (now : Int)
  deriving DecidableEq, Repr

/-- The user state saved by one counter mutation endpoint. -/
def applyCounterOp (u : User) : CounterOp → User
  | CounterOp.incListing => (incrementListingCount u).2
  | CounterOp.decListing => (decrementListingCount u).2
  | CounterOp.incJobPost => (incrementJobPostCount u).2
  | CounterOp.incBrowse now => (incrementBrowseCount now u).2

def runCounterOps (u : User) (ops : List CounterOp) : User :=
  ops.foldl applyCounterOp u

/-- One call to a quota decision endpoint. -/
inductive CheckOp
  | browse (now : Int) (plans : List Plan)
  | listing (now : Int) (plans : List Plan)
  | jobPost (now : Int) (plans : List Plan)

/-- The user state saved by one quota decision endpoint. -/
def applyCheckOp (u : User) : CheckOp → User
  | CheckOp.browse now plans => (checkBrowseLimit now plans u).2
  | CheckOp.listing now plans => (checkListingLimit now plans u).2
  | CheckOp.jobPost now plans => (checkJobPostLimit now plans u).2

def runCheckOps (u : User) (ops : List CheckOp) : User :=
  ops.foldl applyCheckOp u

/-- The stored status of a user's subscription, when one exists. -/
def subStatus (u : User) : Option SubStatus :=
  u.subscription.map (fun s => s.status)

/-- All three usage counters of a user's subscription are non-negative. -/
def countersNonneg (u : User) : Prop :=
  ∀ s, u.subscription = some s →
    0 ≤ s.listingsUsed ∧ 0 ≤ s.jobPostsUsed ∧ 0 ≤ s.browseCount

/-- Number of pending change requests stored for a user. -/
def countPending (reqs : List SubRequest) (uid : Nat) : Nat :=
  (reqs.filter (fun r => r.userId == uid && r.status == ReqStatus.pending)).length

theorem jsOr0_eq (x : Int) : jsOr0 x = x := by
  unfold jsOr0
  split <;> omega

/-! Concrete sample data used by counterexamples and witnesses. -/

def baseFeatures : PlanFeatures :=
  { maxListings := 5, maxJobPosts := 2, maxBrowsesPerMonth := 10,
    dataDelayDays := 7, teacherDataDelayDays := 3,
    canAdvertiseVehicles := false, instantVehicleAlerts := false,
    instantJobAlerts := false, priorityListings := false, analytics := false }

def basePlan : Plan :=
  { id := 1, name := "institute-silver", displayName := "Institute Silver",
    planType := "institute", price := 100, duration := 30,
    features := baseFeatures, isActive := true }

def baseSub : Subscription :=
  { planId := 1, status := SubStatus.active, paymentStatus := PayStatus.completed,
    startDate := 0, endDate := 2592000000, listingsUsed := 3, listingsLimit := 5,
    jobPostsUsed := 0, jobPostsLimit := 2, browseCount := 4, browseCountLimit := 10,
    lastBrowseReset := 0, notes := "" }

def baseUser : User :=
  { id := 7, role := "institute", subscription := some baseSub }

/-! ## Claim C1 -/

/-- C1 (amended): for an active, unexpired subscription with a resolvable
plan (and no browse rollover due), every metered check returns
`remaining = max 0 (limit - used)` with the limit taken from the live
plan's feature record, and `allowed` holds iff `remaining > 0`; this
formula applies uniformly to every integer limit — there is no `-1`
unlimited sentinel. -/
theorem metered_check_remaining_allowed
    (now : Int) (plans : List Plan) (u : User) (s : Subscription) (p : Plan)
    (hsub : u.subscription = some s)
    (hplan : findPlan plans s.planId = some p)
    (hact : s.status = SubStatus.active)
    (hlive : ¬ s.endDate < now)
    (hroll : (now - s.lastBrowseReset).fdiv msPerDay < 30) :
    ((checkListingLimit now plans u).1.remaining
        = max 0 (p.features.maxListings - s.listingsUsed)
      ∧ ((checkListingLimit now plans u).1.allowed = true
          ↔ 0 < (checkListingLimit now plans u).1.remaining))
    ∧ ((checkJobPostLimit now plans u).1.remaining
        = max 0 (p.features.maxJobPosts - s.jobPostsUsed)
      ∧ ((checkJobPostLimit now plans u).1.allowed = true
          ↔ 0 < (checkJobPostLimit now plans u).1.remaining))
    ∧ ((checkBrowseLimit now plans u).1.remaining
        = max 0 (p.features.maxBrowsesPerMonth - s.browseCount)
      ∧ ((checkBrowseLimit now plans u).1.allowed = true
          ↔ 0 < (checkBrowseLimit now plans u).1.remaining)) := by
  have hnotroll : ¬ 30 ≤ (now - s.lastBrowseReset).fdiv msPerDay := not_le.mpr hroll
  refine ⟨?_, ?_, ?_⟩
  · simp only [checkListingLimit, hsub, hplan, hact, jsOr0_eq]
    simp only [ne_eq, not_true_eq_false, if_false, hlive]
    constructor
    · trivial
    · simp only [Bool.not_eq_true']
      constructor
      · intro h
        have := of_decide_eq_false h
        omega
      · intro h
        apply decide_eq_false
        omega
  · simp only [checkJobPostLimit, hsub, hplan, hact, jsOr0_eq]
    simp only [ne_eq, not_true_eq_false, if_false, hlive]
    constructor
    · trivial
    · simp only [Bool.not_eq_true']
      constructor
      · intro h
        have := of_decide_eq_false h
        omega
      · intro h
        apply decide_eq_false
        omega
  · simp only [checkBrowseLimit, checkAndResetBillingPeriod, hsub, hnotroll, if_false]
    simp only [hsub, hplan, hact, jsOr0_eq]
    simp only [ne_eq, not_true_eq_false, if_false, hlive]
    constructor
    · trivial
    · simp only [Bool.not_eq_true']
      constructor
      · intro h
        have := of_decide_eq_false h
        omega
      · intro h
        apply decide_eq_false
        omega

/-- Witness for C1 at a concrete snapshot. -/
theorem metered_check_remaining_allowed_witness :
    (((checkListingLimit 0 [basePlan] baseUser).1.remaining
        = max 0 (basePlan.features.maxListings - baseSub.listingsUsed)
      ∧ ((checkListingLimit 0 [basePlan] baseUser).1.allowed = true
          ↔ 0 < (checkListingLimit 0 [basePlan] baseUser).1.remaining))
    ∧ ((checkJobPostLimit 0 [basePlan] baseUser).1.remaining
        = max 0 (basePlan.features.maxJobPosts - baseSub.jobPostsUsed)
      ∧ ((checkJobPostLimit 0 [basePlan] baseUser).1.allowed = true
          ↔ 0 < (checkJobPostLimit 0 [basePlan] baseUser).1.remaining))
    ∧ ((checkBrowseLimit 0 [basePlan] baseUser).1.remaining
        = max 0 (basePlan.features.maxBrowsesPerMonth - baseSub.browseCount)
      ∧ ((checkBrowseLimit 0 [basePlan] baseUser).1.allowed = true
          ↔ 0 < (checkBrowseLimit 0 [basePlan] baseUser).1.remaining))) :=
  metered_check_remaining_allowed 0 [basePlan] baseUser baseSub basePlan
    rfl rfl rfl (by decide) (by decide)

/-- A schema-valid plan whose `maxJobPosts` is the `-1` sentinel (the
plan schema has no `min` on `maxJobPosts`). -/
def sentinelPlan : Plan :=
  { basePlan with features := { baseFeatures with maxJobPosts := -1 } }

def sentinelUser : User :=
  { baseUser with subscription := some { baseSub with jobPostsUsed := 0 } }

/-- C1 counterexample: with an active, unexpired subscription on a
schema-valid plan holding `maxJobPosts = -1`, `checkJobPostLimit` denies
the action with `remaining = 0` — the sentinel is not treated as
unbounded. -/
theorem metered_check_no_unlimited_sentinel_cex :
    planSchemaValid sentinelPlan
    ∧ sentinelPlan.features.maxJobPosts = -1
    ∧ sentinelUser.subscription = some { baseSub with jobPostsUsed := 0 }
    ∧ (∀ s, sentinelUser.subscription = some s →
        s.status = SubStatus.active ∧ ¬ s.endDate < (0 : Int))
    ∧ (checkJobPostLimit 0 [sentinelPlan] sentinelUser).1.allowed = false
    ∧ (checkJobPostLimit 0 [sentinelPlan] sentinelUser).1.remaining = 0 := by
  decide

/-! ## Claim C4 -/

/-- C4 (amended): with no Subscription Record (or a dangling plan
reference, absent a browse rollover), `checkBrowseLimit` fails open with
`{allowed := true, remaining := 10, limitReached := false}` while
`checkListingLimit` fails closed with `allowed := false` and
`limitReached := true` — but it reports `remaining = 2`, not 0. -/
theorem fallback_browse_open_listing_closed
    (now : Int) (plans : List Plan) (u : User)
    (hnosub : u.subscription = none ∨
      ∃ s, u.subscription = some s ∧ findPlan plans s.planId = none ∧
        (now - s.lastBrowseReset).fdiv msPerDay < 30) :
    (checkBrowseLimit now plans u).1 =
      { allowed := true, remaining := 10, limitReached := false,
        message := some "Using free plan limits" }
    ∧ (checkListingLimit now plans u).1 =
      { allowed := false, remaining := 2, limitReached := true,
        message := some "No active subscription. Listing creation not allowed." } := by
  rcases hnosub with h | ⟨s, hs, hp, hroll⟩
  · constructor
    · simp [checkBrowseLimit, checkAndResetBillingPeriod, h]
    · simp [checkListingLimit, h]
  · have hnotroll : ¬ 30 ≤ (now - s.lastBrowseReset).fdiv msPerDay := not_le.mpr hroll
    constructor
    · simp only [checkBrowseLimit, checkAndResetBillingPeriod, hs, hnotroll, if_false]
      simp [hs, hp]
    · simp [checkListingLimit, hs, hp]

def noSubUser : User := { id := 9, role := "institute", subscription := none }

/-- Witness for C4 with a user holding no subscription. -/
theorem fallback_browse_open_listing_closed_witness :
    ((checkBrowseLimit 0 [] noSubUser).1 =
      { allowed := true, remaining := 10, limitReached := false,
        message := some "Using free plan limits" }
    ∧ (checkListingLimit 0 [] noSubUser).1 =
      { allowed := false, remaining := 2, limitReached := true,
        message := some "No active subscription. Listing creation not allowed." }) :=
  fallback_browse_open_listing_closed 0 [] noSubUser (Or.inl rfl)

/-- C4 counterexample: the claim's fail-closed fallback asserts
`remaining = 0`, but `checkListingLimit` answers `remaining = 2` for a
user with no subscription. -/
theorem fallback_listing_remaining_cex :
    noSubUser.subscription = none
    ∧ (checkListingLimit 0 [] noSubUser).1.allowed = false
    ∧ (checkListingLimit 0 [] noSubUser).1.limitReached = true
    ∧ (checkListingLimit 0 [] noSubUser).1.remaining = 2
    ∧ ¬ (checkListingLimit 0 [] noSubUser).1.remaining = 0 := by
  decide

/-! ## Claim C2 -/

theorem billingReset_preserves_nonneg (now : Int) (u : User)
    (h : countersNonneg u) : countersNonneg (checkAndResetBillingPeriod now u).1 := by
  unfold countersNonneg at h ⊢
  unfold checkAndResetBillingPeriod
  cases hsub : u.subscription with
  | none => simp only [hsub]; exact fun s2 hs2 => Option.noConfusion hs2
  | some s =>
    have hs := h s hsub
    simp only [hsub]
    split
    · intro s2 hs2
      simp only [Option.some.injEq] at hs2
      subst hs2
      exact ⟨hs.1, hs.2.1, le_refl 0⟩
    · exact h

theorem counterOp_preserves_nonneg (u : User) (op : CounterOp)
    (h : countersNonneg u) : countersNonneg (applyCounterOp u op) := by
  cases op with
  | incListing =>
    unfold countersNonneg at h ⊢
    simp only [applyCounterOp, incrementListingCount]
    cases hsub : u.subscription with
    | none => simp only [hsub]; exact fun s2 hs2 => Option.noConfusion hs2
    | some s =>
      have hs := h s hsub
      simp only [hsub]
      split
      · exact h
      · intro s2 hs2
        simp only [Option.some.injEq] at hs2
        subst hs2
        exact ⟨by simp only [jsOr0_eq]; omega, hs.2.1, hs.2.2⟩
  | decListing =>
    unfold countersNonneg at h ⊢
    simp only [applyCounterOp, decrementListingCount]
    cases hsub : u.subscription with
    | none => simp only [hsub]; exact fun s2 hs2 => Option.noConfusion hs2
    | some s =>
      have hs := h s hsub
      simp only [hsub]
      split
      · intro s2 hs2
        simp only [Option.some.injEq] at hs2
        subst hs2
        refine ⟨?_, hs.2.1, hs.2.2⟩
        simp only [jsOr0_eq] at *
        omega
      · exact h
  | incJobPost =>
    unfold countersNonneg at h ⊢
    simp only [applyCounterOp, incrementJobPostCount]
    cases hsub : u.subscription with
    | none => simp only [hsub]; exact fun s2 hs2 => Option.noConfusion hs2
    | some s =>
      have hs := h s hsub
      simp only [hsub]
      split
      · exact h
      · intro s2 hs2
        simp only [Option.some.injEq] at hs2
        subst hs2
        exact ⟨hs.1, by simp only [jsOr0_eq]; omega, hs.2.2⟩
  | incBrowse now =>
    have h1 := billingReset_preserves_nonneg now u h
    unfold countersNonneg at h1 ⊢
    simp only [applyCounterOp, incrementBrowseCount]
    cases hsub : (checkAndResetBillingPeriod now u).1.subscription with
    | none => simp only [hsub]; exact fun s2 hs2 => Option.noConfusion hs2
    | some s =>
      have hs := h1 s hsub
      simp only [hsub]
      split
      · exact h1
      · intro s2 hs2
        simp only [Option.some.injEq] at hs2
        subst hs2
        exact ⟨hs.1, hs.2.1, by simp only [jsOr0_eq]; omega⟩

theorem runCounterOps_nonneg (ops : List CounterOp) :
    ∀ u : User, countersNonneg u → countersNonneg (runCounterOps u ops) := by
  induction ops with
  | nil => exact fun u h => h
  | cons op ops ih => exact fun u h => ih _ (counterOp_preserves_nonneg u op h)

/-- C2: starting from non-negative usage counters, no sequence of
increment/decrement endpoint calls can drive any counter negative; and a
decrement issued while `listingsUsed = 0` leaves the user unchanged
while still reporting `success = true`. -/
theorem counters_never_negative (u uz : User) (sz : Subscription)
    (ops : List CounterOp)
    (h : countersNonneg u)
    (hsubz : uz.subscription = some sz) (hz : sz.listingsUsed = 0) :
    countersNonneg (runCounterOps u ops)
    ∧ (decrementListingCount uz).1.success = true
    ∧ (decrementListingCount uz).2 = uz := by
  refine ⟨runCounterOps_nonneg ops u h, ?_, ?_⟩
  · simp [decrementListingCount, hsubz, hz, jsOr0_eq]
  · simp [decrementListingCount, hsubz, hz, jsOr0_eq]

def zeroSub : Subscription := { baseSub with listingsUsed := 0 }

def zeroUser : User := { baseUser with subscription := some zeroSub }

/-- Witness for C2: a mixed operation sequence from a concrete user, and
a decrement at zero. -/
theorem counters_never_negative_witness :
    countersNonneg (runCounterOps baseUser
      [CounterOp.decListing, CounterOp.decListing, CounterOp.decListing,
        CounterOp.decListing, CounterOp.incListing, CounterOp.incBrowse 5,
        CounterOp.incJobPost, CounterOp.decListing, CounterOp.decListing])
    ∧ (decrementListingCount zeroUser).1.success = true
    ∧ (decrementListingCount zeroUser).2 = zeroUser :=
  counters_never_negative baseUser zeroUser zeroSub
    [CounterOp.decListing, CounterOp.decListing, CounterOp.decListing,
      CounterOp.decListing, CounterOp.incListing, CounterOp.incBrowse 5,
      CounterOp.incJobPost, CounterOp.decListing, CounterOp.decListing]
    (by
      intro s hs
      have hseq : s = baseSub := by
        have : some baseSub = some s := hs
        exact (Option.some.injEq _ _ ▸ this).symm
      subst hseq
      refine ⟨by decide, by decide, by decide⟩)
    rfl rfl

/-! ## Claim C3 -/

theorem billingReset_subStatus (now : Int) (u : User) :
    subStatus (checkAndResetBillingPeriod now u).1 = subStatus u := by
  unfold subStatus checkAndResetBillingPeriod
  cases hsub : u.subscription with
  | none => simp [hsub]
  | some s =>
    simp only [hsub]
    split
    · simp [hsub]
    · simp [hsub]

theorem billingReset_frame (now : Int) (u : User) (s : Subscription)
    (hsub : u.subscription = some s) :
    ∃ s1, (checkAndResetBillingPeriod now u).1.subscription = some s1
      ∧ s1.planId = s.planId ∧ s1.status = s.status ∧ s1.endDate = s.endDate := by
  unfold checkAndResetBillingPeriod
  simp only [hsub]
  split
  · exact ⟨_, rfl, rfl, rfl, rfl⟩
  · exact ⟨s, hsub, rfl, rfl, rfl⟩

theorem checkOp_preserves_nonactive (u : User) (op : CheckOp) (st : SubStatus)
    (hst : st ≠ SubStatus.active)
    (h : subStatus u = some st) :
    subStatus (applyCheckOp u op) = some st := by
  cases op with
  | browse now plans =>
    have hb : subStatus (checkAndResetBillingPeriod now u).1 = some st := by
      rw [billingReset_subStatus]; exact h
    simp only [applyCheckOp, checkBrowseLimit]
    cases hsub : (checkAndResetBillingPeriod now u).1.subscription with
    | none => simp only [hsub]; exact hb
    | some s1 =>
      have hs1 : s1.status = st := by
        unfold subStatus at hb
        rw [hsub] at hb
        simpa using hb
      simp only [hsub]
      cases hfp : findPlan plans s1.planId with
      | none => simp only [hfp]; exact hb
      | some p =>
        simp only [hfp]
        rw [if_pos (by rw [hs1]; exact hst)]
        exact hb
  | listing now plans =>
    simp only [applyCheckOp, checkListingLimit]
    cases hsub : u.subscription with
    | none => simp only [hsub]; exact h
    | some s1 =>
      have hs1 : s1.status = st := by
        unfold subStatus at h
        rw [hsub] at h
        simpa using h
      simp only [hsub]
      cases hfp : findPlan plans s1.planId with
      | none => simp only [hfp]; exact h
      | some p =>
        simp only [hfp]
        rw [if_pos (by rw [hs1]; exact hst)]
        exact h
  | jobPost now plans =>
    simp only [applyCheckOp, checkJobPostLimit]
    cases hsub : u.subscription with
    | none => simp only [hsub]; exact h
    | some s1 =>
      have hs1 : s1.status = st := by
        unfold subStatus at h
        rw [hsub] at h
        simpa using h
      simp only [hsub]
      cases hfp : findPlan plans s1.planId with
      | none => simp only [hfp]; exact h
      | some p =>
        simp only [hfp]
        rw [if_pos (by rw [hs1]; exact hst)]
        exact h

theorem runCheckOps_preserves_nonactive (ops : List CheckOp) (st : SubStatus)
    (hst : st ≠ SubStatus.active) :
    ∀ u : User, subStatus u = some st → subStatus (runCheckOps u ops) = some st := by
  induction ops with
  | nil => exact fun u h => h
  | cons op ops ih =>
    exact fun u h => ih _ (checkOp_preserves_nonactive u op st hst h)

/-- C3: an active subscription whose `endDate` lies in the past is
rewritten to `expired` by the first `checkBrowseLimit` call, which
denies with the "Subscription has expired" reason; every further quota
decision call leaves the status at `expired`. -/
theorem expiry_flip_and_monotone
    (now : Int) (plans : List Plan) (u : User) (s : Subscription)
    (ops : List CheckOp)
    (hsub : u.subscription = some s) (hact : s.status = SubStatus.active)
    (hplan : (findPlan plans s.planId).isSome) (hexp : s.endDate < now) :
    (checkBrowseLimit now plans u).1.allowed = false
    ∧ (checkBrowseLimit now plans u).1.message = some "Subscription has expired"
    ∧ subStatus (checkBrowseLimit now plans u).2 = some SubStatus.expired
    ∧ subStatus (runCheckOps (checkBrowseLimit now plans u).2 ops) = some SubStatus.expired := by
  obtain ⟨s1, hsub1, hpid1, hst1, hend1⟩ := billingReset_frame now u s hsub
  obtain ⟨p, hp⟩ := Option.isSome_iff_exists.mp hplan
  have hfp1 : findPlan plans s1.planId = some p := by rw [hpid1]; exact hp
  have hmain :
      (checkBrowseLimit now plans u).1.allowed = false
      ∧ (checkBrowseLimit now plans u).1.message = some "Subscription has expired"
      ∧ subStatus (checkBrowseLimit now plans u).2 = some SubStatus.expired := by
    simp only [checkBrowseLimit, hsub1, hfp1]
    rw [if_neg (by rw [hst1, hact]; simp)]
    rw [if_pos (by rw [hend1]; exact hexp)]
    refine ⟨rfl, rfl, ?_⟩
    simp [subStatus]
  refine ⟨hmain.1, hmain.2.1, hmain.2.2, ?_⟩
  exact runCheckOps_preserves_nonactive ops SubStatus.expired (by simp) _ hmain.2.2

def expiredStartUser : User :=
  { baseUser with subscription := some { baseSub with endDate := 100 } }

/-- Witness for C3: yesterday-expired subscription, first browse check at
a later time, then further decision calls. -/
theorem expiry_flip_and_monotone_witness :
    (checkBrowseLimit 200 [basePlan] expiredStartUser).1.allowed = false
    ∧ (checkBrowseLimit 200 [basePlan] expiredStartUser).1.message
        = some "Subscription has expired"
    ∧ subStatus (checkBrowseLimit 200 [basePlan] expiredStartUser).2
        = some SubStatus.expired
    ∧ subStatus (runCheckOps (checkBrowseLimit 200 [basePlan] expiredStartUser).2
        [CheckOp.browse 300 [basePlan], CheckOp.listing 400 [basePlan],
          CheckOp.jobPost 500 [basePlan]]) = some SubStatus.expired :=
  expiry_flip_and_monotone 200 [basePlan] expiredStartUser
    { baseSub with endDate := 100 }
    [CheckOp.browse 300 [basePlan], CheckOp.listing 400 [basePlan],
      CheckOp.jobPost 500 [basePlan]]
    rfl rfl (by decide) (by decide)

/-! ## Claim C5 -/

/-- C5 (amended): approving a pending change request re-snapshots the
limit fields from the requested plan, resets all three usage counters to
0, re-stamps the period and `lastBrowseReset`, forces `status = active`
and derives `paymentStatus` from the price; the direct admin
`changePlan` performs the same re-snapshot and re-stamp but leaves the
three usage counters untouched. -/
theorem change_plan_snapshot_and_resets
    (now : Int) (plans : List Plan) (users : List User) (reqs : List SubRequest)
    (rid pid : Nat) (anotes : String) (cnotes : Option String)
    (req : SubRequest) (u : User) (s : Subscription) (plan plan2 : Plan)
    (hreq : findRequest reqs rid = some req)
    (hpend : req.status = ReqStatus.pending)
    (huser : findUser users req.userId = some u)
    (hsub : u.subscription = some s)
    (hplan : findPlan plans req.requestedPlanId = some plan)
    (hplan2 : findPlan plans pid = some plan2) :
    updateSubscriptionRequest now plans users reqs rid ReqStatus.approved anotes
      = Except.ok
          ({ req with status := ReqStatus.approved, adminNotes := anotes },
           saveUser users { u with subscription := some { s with
             planId := plan.id,
             listingsLimit := plan.features.maxListings,
             browseCountLimit := plan.features.maxBrowsesPerMonth,
             jobPostsLimit := plan.features.maxJobPosts,
             listingsUsed := 0,
             browseCount := 0,
             jobPostsUsed := 0,
             status := SubStatus.active,
             paymentStatus := if 0 < plan.price then PayStatus.pending else PayStatus.completed,
             startDate := now,
             endDate := now + plan.duration * msPerDay,
             notes := "Plan changed via request: " ++ req.requestType ++ ". " ++ anotes,
             lastBrowseReset := now } },
           saveRequest reqs { req with status := ReqStatus.approved, adminNotes := anotes })
    ∧ changePlan now plans u pid cnotes
      = some { u with subscription := some { s with
          planId := plan2.id,
          status := SubStatus.active,
          paymentStatus := if 0 < plan2.price then PayStatus.pending else PayStatus.completed,
          startDate := now,
          endDate := now + plan2.duration * msPerDay,
          listingsLimit := plan2.features.maxListings,
          jobPostsLimit := plan2.features.maxJobPosts,
          browseCountLimit := plan2.features.maxBrowsesPerMonth,
          notes := jsOrStr cnotes ("Plan changed by admin to " ++ plan2.displayName) } }
    ∧ ((changePlan now plans u pid cnotes).bind User.subscription).map
        Subscription.listingsUsed = some s.listingsUsed
    ∧ ((changePlan now plans u pid cnotes).bind User.subscription).map
        Subscription.jobPostsUsed = some s.jobPostsUsed
    ∧ ((changePlan now plans u pid cnotes).bind User.subscription).map
        Subscription.browseCount = some s.browseCount := by
  have hchange : changePlan now plans u pid cnotes
      = some { u with subscription := some { s with
          planId := plan2.id,
          status := SubStatus.active,
          paymentStatus := if 0 < plan2.price then PayStatus.pending else PayStatus.completed,
          startDate := now,
          endDate := now + plan2.duration * msPerDay,
          listingsLimit := plan2.features.maxListings,
          jobPostsLimit := plan2.features.maxJobPosts,
          browseCountLimit := plan2.features.maxBrowsesPerMonth,
          notes := jsOrStr cnotes ("Plan changed by admin to " ++ plan2.displayName) } } := by
    simp [changePlan, hsub, hplan2]
  refine ⟨?_, hchange, ?_, ?_, ?_⟩
  · simp only [updateSubscriptionRequest, hreq, hpend, ne_eq, not_true_eq_false, if_false,
      reduceIte, huser, hplan, applyApprovedPlanChange, hsub]
  · rw [hchange]; rfl
  · rw [hchange]; rfl
  · rw [hchange]; rfl

def requestA : SubRequest :=
  { id := 11, userId := 7, currentPlanId := 1, requestedPlanId := 2,
    requestType := "upgrade", status := ReqStatus.pending,
    userNotes := "please", adminNotes := "" }

def planPro : Plan :=
  { basePlan with
      id := 2
      name := "teacher-pro"
      displayName := "Teacher Pro"
      price := 0
      duration := 60
      features := { baseFeatures with maxJobPosts := 20, maxBrowsesPerMonth := 100 } }

/-- Witness for C5: an approved upgrade request and a direct admin plan
change against a subscription with used counters. -/
theorem change_plan_snapshot_and_resets_witness :
    (updateSubscriptionRequest 0 [basePlan, planPro] [baseUser] [requestA] 11
        ReqStatus.approved "ok"
      = Except.ok
          ({ requestA with status := ReqStatus.approved, adminNotes := "ok" },
           saveUser [baseUser] { baseUser with subscription := some { baseSub with
             planId := planPro.id,
             listingsLimit := planPro.features.maxListings,
             browseCountLimit := planPro.features.maxBrowsesPerMonth,
             jobPostsLimit := planPro.features.maxJobPosts,
             listingsUsed := 0,
             browseCount := 0,
             jobPostsUsed := 0,
             status := SubStatus.active,
             paymentStatus := if 0 < planPro.price then PayStatus.pending else PayStatus.completed,
             startDate := 0,
             endDate := 0 + planPro.duration * msPerDay,
             notes := "Plan changed via request: " ++ requestA.requestType ++ ". " ++ "ok",
             lastBrowseReset := 0 } },
           saveRequest [requestA] { requestA with status := ReqStatus.approved, adminNotes := "ok" }))
    ∧ changePlan 0 [basePlan, planPro] baseUser 2 none
      = some { baseUser with subscription := some { baseSub with
          planId := planPro.id,
          status := SubStatus.active,
          paymentStatus := if 0 < planPro.price then PayStatus.pending else PayStatus.completed,
          startDate := 0,
          endDate := 0 + planPro.duration * msPerDay,
          listingsLimit := planPro.features.maxListings,
          jobPostsLimit := planPro.features.maxJobPosts,
          browseCountLimit := planPro.features.maxBrowsesPerMonth,
          notes := jsOrStr none ("Plan changed by admin to " ++ planPro.displayName) } }
    ∧ ((changePlan 0 [basePlan, planPro] baseUser 2 none).bind User.subscription).map
        Subscription.listingsUsed = some baseSub.listingsUsed
    ∧ ((changePlan 0 [basePlan, planPro] baseUser 2 none).bind User.subscription).map
        Subscription.jobPostsUsed = some baseSub.jobPostsUsed
    ∧ ((changePlan 0 [basePlan, planPro] baseUser 2 none).bind User.subscription).map
        Subscription.browseCount = some baseSub.browseCount :=
  change_plan_snapshot_and_resets 0 [basePlan, planPro] [baseUser] [requestA]
    11 2 "ok" none requestA baseUser baseSub planPro planPro
    rfl rfl rfl rfl rfl rfl

/-- C5 counterexample: the direct admin `changePlan` does not reset the
usage counters — `listingsUsed` stays at 3 and `browseCount` at 4
instead of dropping to 0 as the claim requires for every change-plan
transition. -/
theorem change_plan_counters_not_reset_cex :
    (baseUser.subscription).map Subscription.listingsUsed = some 3
    ∧ ((changePlan 0 [basePlan, planPro] baseUser 2 none).bind User.subscription).map
        Subscription.listingsUsed = some 3
    ∧ ¬ ((changePlan 0 [basePlan, planPro] baseUser 2 none).bind User.subscription).map
        Subscription.listingsUsed = some 0
    ∧ ((changePlan 0 [basePlan, planPro] baseUser 2 none).bind User.subscription).map
        Subscription.browseCount = some 4
    ∧ ¬ ((changePlan 0 [basePlan, planPro] baseUser 2 none).bind User.subscription).map
        Subscription.browseCount = some 0 := by
  decide

/-! ## Claim C6 -/

/-- C6 (amended): the three increment endpoints mutate only on an active
subscription and otherwise report `success = false` without touching the
state (modulo the browse rollover, excluded here); but
`decrementListingCount` checks only that a subscription exists — on a
non-active subscription with a positive counter it still decrements and
reports `success = true`, and only a missing subscription yields
`success = false`. -/
theorem counter_mutation_gating
    (now : Int) (u : User) (s : Subscription)
    (hsub : u.subscription = some s)
    (hnact : s.status ≠ SubStatus.active)
    (hroll : (now - s.lastBrowseReset).fdiv msPerDay < 30)
    (hpos : 0 < s.listingsUsed) :
    (incrementListingCount u).1.success = false
    ∧ (incrementListingCount u).2 = u
    ∧ (incrementJobPostCount u).1.success = false
    ∧ (incrementJobPostCount u).2 = u
    ∧ (incrementBrowseCount now u).1.success = false
    ∧ (incrementBrowseCount now u).2 = u
    ∧ (decrementListingCount u).1.success = true
    ∧ (decrementListingCount u).2
        = { u with subscription := some { s with listingsUsed := s.listingsUsed - 1 } }
    ∧ (decrementListingCount { u with subscription := none }).1.success = false
    ∧ (decrementListingCount { u with subscription := none }).2
        = { u with subscription := none } := by
  have hnotroll : ¬ 30 ≤ (now - s.lastBrowseReset).fdiv msPerDay := not_le.mpr hroll
  have hjs : 0 < jsOr0 s.listingsUsed := by rw [jsOr0_eq]; exact hpos
  refine ⟨?_, ?_, ?_, ?_, ?_, ?_, ?_, ?_, ?_, ?_⟩
  · simp [incrementListingCount, hsub, hnact]
  · simp [incrementListingCount, hsub, hnact]
  · simp [incrementJobPostCount, hsub, hnact]
  · simp [incrementJobPostCount, hsub, hnact]
  · simp only [incrementBrowseCount, checkAndResetBillingPeriod, hsub, hnotroll, if_false]
    simp [hsub, hnact]
  · simp only [incrementBrowseCount, checkAndResetBillingPeriod, hsub, hnotroll, if_false]
    simp [hsub, hnact]
  · simp [decrementListingCount, hsub, hjs]
  · simp only [decrementListingCount, hsub, jsOr0_eq]
    rw [if_pos hpos]
  · simp [decrementListingCount]
  · simp [decrementListingCount]

def suspSub : Subscription :=
  { baseSub with status := SubStatus.suspended, listingsUsed := 1 }

def suspUser : User :=
  { baseUser with subscription := some suspSub }

/-- Witness for C6 on a suspended subscription with one used listing. -/
theorem counter_mutation_gating_witness :
    (incrementListingCount suspUser).1.success = false
    ∧ (incrementListingCount suspUser).2 = suspUser
    ∧ (incrementJobPostCount suspUser).1.success = false
    ∧ (incrementJobPostCount suspUser).2 = suspUser
    ∧ (incrementBrowseCount 5 suspUser).1.success = false
    ∧ (incrementBrowseCount 5 suspUser).2 = suspUser
    ∧ (decrementListingCount suspUser).1.success = true
    ∧ (decrementListingCount suspUser).2
        = { suspUser with subscription := some { suspSub with listingsUsed := suspSub.listingsUsed - 1 } }
    ∧ (decrementListingCount { suspUser with subscription := none }).1.success = false
    ∧ (decrementListingCount { suspUser with subscription := none }).2
        = { suspUser with subscription := none } :=
  counter_mutation_gating 5 suspUser suspSub rfl (by decide) (by decide) (by decide)

/-- C6 counterexample: on a suspended subscription the decrement
endpoint still mutates the counter and reports success, where the claim
demands a `success = false` no-op for every non-active status. -/
theorem decrement_ignores_status_cex :
    subStatus suspUser = some SubStatus.suspended
    ∧ (decrementListingCount suspUser).1.success = true
    ∧ ((decrementListingCount suspUser).2.subscription).map Subscription.listingsUsed = some 0
    ∧ (suspUser.subscription).map Subscription.listingsUsed = some 1 := by
  decide

/-! ## Claim C7 -/

/-- C7 (amended): the limit checks meter against the live plan document
resolved through `planId`, not against the frozen snapshot fields:
`remaining` is computed from `plan.features`, and rewriting the
snapshot (`listingsLimit`, `browseCountLimit`) to any value leaves the
check's payload unchanged — consequently an `updatePlan` between two
checks does change the second outcome. -/
theorem checks_read_live_plan
    (now : Int) (plans : List Plan) (u : User) (s : Subscription) (p : Plan)
    (v w : Int)
    (hsub : u.subscription = some s)
    (hplan : findPlan plans s.planId = some p)
    (hact : s.status = SubStatus.active)
    (hlive : ¬ s.endDate < now)
    (hroll : (now - s.lastBrowseReset).fdiv msPerDay < 30) :
    (checkListingLimit now plans u).1.remaining
        = max 0 (p.features.maxListings - s.listingsUsed)
    ∧ (checkBrowseLimit now plans u).1.remaining
        = max 0 (p.features.maxBrowsesPerMonth - s.browseCount)
    ∧ (checkListingLimit now plans
        { u with subscription := some { s with listingsLimit := v } }).1
      = (checkListingLimit now plans u).1
    ∧ (checkBrowseLimit now plans
        { u with subscription := some { s with browseCountLimit := w } }).1
      = (checkBrowseLimit now plans u).1 := by
  have hnotroll : ¬ 30 ≤ (now - s.lastBrowseReset).fdiv msPerDay := not_le.mpr hroll
  refine ⟨?_, ?_, ?_, ?_⟩
  · simp only [checkListingLimit, hsub, hplan, hact, jsOr0_eq]
    simp [hlive]
  · simp only [checkBrowseLimit, checkAndResetBillingPeriod, hsub, hnotroll, if_false]
    simp only [hsub, hplan, hact, jsOr0_eq]
    simp [hlive]
  · simp only [checkListingLimit, hsub, hplan, hact, jsOr0_eq]
    simp [hlive]
  · simp only [checkBrowseLimit, checkAndResetBillingPeriod, hsub, hnotroll, if_false]
    simp only [hsub, hplan, hact, jsOr0_eq]
    simp [hlive]

/-- Witness for C7: the snapshot fields of the live subscription can be
rewritten arbitrarily without changing the check payloads. -/
theorem checks_read_live_plan_witness :
    ((checkListingLimit 0 [basePlan] baseUser).1.remaining
        = max 0 (basePlan.features.maxListings - baseSub.listingsUsed)
    ∧ (checkBrowseLimit 0 [basePlan] baseUser).1.remaining
        = max 0 (basePlan.features.maxBrowsesPerMonth - baseSub.browseCount)
    ∧ (checkListingLimit 0 [basePlan]
        { baseUser with subscription := some { baseSub with listingsLimit := 999 } }).1
      = (checkListingLimit 0 [basePlan] baseUser).1
    ∧ (checkBrowseLimit 0 [basePlan]
        { baseUser with subscription := some { baseSub with browseCountLimit := 999 } }).1
      = (checkBrowseLimit 0 [basePlan] baseUser).1) :=
  checks_read_live_plan 0 [basePlan] baseUser baseSub basePlan 999 999
    rfl rfl rfl (by decide) (by decide)

def shrunkPlan : Plan :=
  { basePlan with features := { baseFeatures with maxListings := 0 } }

/-- C7 counterexample: with the user state untouched between the two
checks, an `updatePlan` shrinking `maxListings` from 5 to 0 flips the
second `checkListingLimit` outcome from allowed to denied, although the
subscription's snapshot `listingsLimit` still reads 5. -/
theorem live_plan_metering_cex :
    (checkListingLimit 0 [basePlan] baseUser).1.allowed = true
    ∧ (checkListingLimit 0 [basePlan] baseUser).2 = baseUser
    ∧ updatePlan [basePlan] 1 { features := some { baseFeatures with maxListings := 0 } }
        = some [shrunkPlan]
    ∧ (checkListingLimit 0 [shrunkPlan] baseUser).1.allowed = false
    ∧ (baseUser.subscription).map Subscription.listingsLimit = some 5 := by
  decide

/-! ## Claim C8 -/

theorem countPending_append (reqs : List SubRequest) (r : SubRequest) (uid : Nat) :
    countPending (reqs ++ [r]) uid
      = countPending reqs uid
        + (if (r.userId == uid && r.status == ReqStatus.pending) = true then 1 else 0) := by
  unfold countPending
  rw [List.filter_append, List.length_append]
  congr 1
  by_cases h : (r.userId == uid && r.status == ReqStatus.pending) = true
  · simp [List.filter, h]
  · simp [List.filter, h]

theorem hasPending_false_countPending_zero (reqs : List SubRequest) (uid : Nat)
    (h : hasPendingRequest reqs uid = false) : countPending reqs uid = 0 := by
  unfold hasPendingRequest at h
  unfold countPending
  induction reqs with
  | nil => rfl
  | cons r rest ih =>
    rw [List.any_cons] at h
    have h1 : (r.userId == uid && r.status == ReqStatus.pending) = false := by
      cases hx : (r.userId == uid && r.status == ReqStatus.pending) with
      | false => rfl
      | true => rw [hx] at h; simp at h
    have h2 : rest.any (fun x => x.userId == uid && x.status == ReqStatus.pending) = false := by
      cases hx : rest.any (fun x => x.userId == uid && x.status == ReqStatus.pending) with
      | false => rfl
      | true => rw [hx] at h; simp at h
    rw [List.filter_cons, if_neg (by simp [h1])]
    exact ih h2

/-- C8: with the user and the requested plan both resolvable, a second
change request while one is pending always fails with the duplicate
error (whatever plan is requested), and a successful creation preserves
the at-most-one-pending-request-per-user invariant. -/
theorem duplicate_pending_request_rejected
    (users : List User) (plans : List Plan) (reqs : List SubRequest)
    (nextId uid pid uid2 : Nat) (rt un : String) (u : User) (p : Plan)
    (hu : findUser users uid = some u)
    (hp : findPlan plans pid = some p)
    (hmax : countPending reqs uid2 ≤ 1) :
    (hasPendingRequest reqs uid = true →
      createSubscriptionRequest users plans reqs nextId uid pid rt un
        = Except.error CreateReqError.duplicatePending)
    ∧ (∀ r reqs2,
        createSubscriptionRequest users plans reqs nextId uid pid rt un
          = Except.ok (r, reqs2) →
        countPending reqs2 uid2 ≤ 1) := by
  constructor
  · intro hdup
    simp [createSubscriptionRequest, hu, hp, hdup]
  · intro r reqs2 hok
    simp only [createSubscriptionRequest, hu, hp] at hok
    by_cases hdup : hasPendingRequest reqs uid = true
    · rw [if_pos hdup] at hok
      exact absurd hok (by simp)
    · rw [if_neg hdup] at hok
      simp only [Except.ok.injEq, Prod.mk.injEq] at hok
      obtain ⟨hr, hreqs2⟩ := hok
      subst hreqs2
      rw [countPending_append]
      by_cases huid : uid2 = uid
      · have hz : countPending reqs uid2 = 0 := by
          rw [huid]
          exact hasPending_false_countPending_zero reqs uid (by
            cases hx : hasPendingRequest reqs uid with
            | false => rfl
            | true => exact absurd hx hdup)
        rw [hz]
        split <;> omega
      · have hne : (uid == uid2) = false := by
          simp only [beq_eq_false_iff_ne, ne_eq]
          omega
        show countPending reqs uid2
          + (if (uid == uid2 && ReqStatus.pending == ReqStatus.pending) = true
              then 1 else 0) ≤ 1
        rw [hne]
        simpa using hmax

def freshRequest : SubRequest :=
  { id := 5, userId := 7, currentPlanId := 1, requestedPlanId := 1,
    requestType := "renewal", status := ReqStatus.pending,
    userNotes := "", adminNotes := "" }

/-- Witness for C8: a duplicate rejection against a store holding one
pending request, and invariant preservation for a fresh creation. -/
theorem duplicate_pending_request_rejected_witness :
    (createSubscriptionRequest [baseUser] [basePlan] [requestA] 5 7 1 "renewal" ""
        = Except.error CreateReqError.duplicatePending)
    ∧ countPending [freshRequest] 7 ≤ 1 := by
  have h1 := duplicate_pending_request_rejected [baseUser] [basePlan] [requestA]
    5 7 1 7 "renewal" "" baseUser basePlan rfl rfl (by decide)
  have h2 := duplicate_pending_request_rejected [baseUser] [basePlan] []
    5 7 1 7 "renewal" "" baseUser basePlan rfl rfl (by decide)
  exact ⟨h1.1 (by decide), h2.2 freshRequest [freshRequest] rfl⟩

/-! ## Claim C9 -/

/-- C9 (amended): `checkListingVisibility` ignores the viewer's role and
any ownership — for an active subscription the delay is
`dataDelayDays * 24` hours with `availableAt = createdAt + delay` and
`visible ⇔ availableAt ≤ now`, and a viewer without a subscription
(admins included) gets the flat 168-hour default; only the teacher
search path (`getTeacherDataDelayDate`) bypasses the delay for admins
and for guests, and it defaults to 15 days when the viewer has no
resolvable plan, with a zero-day delay disabling the cutoff. -/
theorem visibility_delay_formula
    (now createdAt : Int) (plans : List Plan)
    (u u2 uAdm uT uF : User) (s sT : Subscription) (p pT : Plan)
    (hsub : u.subscription = some s)
    (hact : s.status = SubStatus.active)
    (hplan : findPlan plans s.planId = some p)
    (hnone2 : u2.subscription = none)
    (hadm : uAdm.role = "admin")
    (hTrole : uT.role ≠ "admin")
    (hsubT : uT.subscription = some sT)
    (hplanT : findPlan plans sT.planId = some pT)
    (hFrole : uF.role ≠ "admin")
    (hsubF : uF.subscription = none) :
    checkListingVisibility now createdAt plans u
      = { visible := decide (createdAt + p.features.dataDelayDays * 24 * msPerHour ≤ now),
          delayHours := p.features.dataDelayDays * 24,
          availableAt := createdAt + p.features.dataDelayDays * 24 * msPerHour }
    ∧ checkListingVisibility now createdAt plans u2
      = { visible := decide (createdAt + 168 * msPerHour ≤ now),
          delayHours := 168,
          availableAt := createdAt + 168 * msPerHour }
    ∧ getTeacherDataDelayDate now (some uAdm) plans = none
    ∧ getTeacherDataDelayDate now (some uT) plans
      = (if pT.features.teacherDataDelayDays = 0 then none
         else some (now - pT.features.teacherDataDelayDays * msPerDay))
    ∧ getTeacherDataDelayDate now (some uF) plans = some (now - 15 * msPerDay)
    ∧ getTeacherDataDelayDate now none plans = none := by
  refine ⟨?_, ?_, ?_, ?_, ?_, ?_⟩
  · simp only [checkListingVisibility, hsub, hplan, hact]
    by_cases hz : p.features.dataDelayDays = 0
    · simp [hz]
    · simp [hz]
  · simp [checkListingVisibility, hnone2]
  · simp [getTeacherDataDelayDate, hadm]
  · simp [getTeacherDataDelayDate, hTrole, hsubT, hplanT]
  · simp [getTeacherDataDelayDate, hFrole, hsubF]
  · rfl

def teacherViewer : User :=
  { id := 21, role := "teacher", subscription := some baseSub }

def freeViewer : User :=
  { id := 22, role := "teacher", subscription := none }

def adminViewer : User :=
  { id := 99, role := "admin", subscription := none }

/-- Witness for C9 across the five viewer shapes. -/
theorem visibility_delay_formula_witness :
    (checkListingVisibility 0 0 [basePlan] baseUser
      = { visible := decide ((0:Int) + basePlan.features.dataDelayDays * 24 * msPerHour ≤ 0),
          delayHours := basePlan.features.dataDelayDays * 24,
          availableAt := 0 + basePlan.features.dataDelayDays * 24 * msPerHour }
    ∧ checkListingVisibility 0 0 [basePlan] freeViewer
      = { visible := decide ((0:Int) + 168 * msPerHour ≤ 0),
          delayHours := 168,
          availableAt := 0 + 168 * msPerHour }
    ∧ getTeacherDataDelayDate 0 (some adminViewer) [basePlan] = none
    ∧ getTeacherDataDelayDate 0 (some teacherViewer) [basePlan]
      = (if basePlan.features.teacherDataDelayDays = 0 then none
         else some (0 - basePlan.features.teacherDataDelayDays * msPerDay))
    ∧ getTeacherDataDelayDate 0 (some freeViewer) [basePlan] = some (0 - 15 * msPerDay)
    ∧ getTeacherDataDelayDate 0 none [basePlan] = none) :=
  visibility_delay_formula 0 0 [basePlan] baseUser freeViewer adminViewer
    teacherViewer freeViewer baseSub baseSub basePlan basePlan
    rfl rfl rfl rfl rfl (by decide) rfl rfl (by decide) rfl

/-- C9 counterexample: an admin checking a freshly created listing is
told `visible = false` with the 168-hour delay — `checkListingVisibility`
grants no admin (or owner) bypass. -/
theorem visibility_no_admin_bypass_cex :
    adminViewer.role = "admin"
    ∧ (checkListingVisibility 0 0 [] adminViewer).visible = false
    ∧ (checkListingVisibility 0 0 [] adminViewer).delayHours = 168 := by
  decide

/-! ## Claim C10 -/

/-- C10: over the six schema statuses, every transition is accepted
except leaving `accepted` for anything other than `rejected` (or
`accepted` itself); identity transitions are always valid and any target
outside the six statuses is always rejected. -/
theorem application_status_transitions
    (current target : String)
    (hcur : current ∈ allStatuses) :
    (target ∉ allStatuses → (validateStatusTransition current target).valid = false)
    ∧ (current = target → (validateStatusTransition current target).valid = true)
    ∧ (target ∈ allStatuses →
        ((validateStatusTransition current target).valid = true
          ↔ (current ≠ "accepted" ∨ target = "accepted" ∨ target = "rejected"))) := by
  refine ⟨?_, ?_, ?_⟩
  · intro hnt
    unfold validateStatusTransition
    rw [if_pos hnt]
  · intro he
    subst he
    unfold validateStatusTransition
    rw [if_neg (not_not_intro hcur), if_pos rfl]
  · intro ht
    simp only [allStatuses, List.mem_cons, List.not_mem_nil, or_false] at hcur ht
    rcases hcur with rfl | rfl | rfl | rfl | rfl | rfl <;>
      rcases ht with rfl | rfl | rfl | rfl | rfl | rfl <;> decide

/-- Witness for C10 at the `accepted → reviewed` corner. -/
theorem application_status_transitions_witness :
    (("reviewed" : String) ∉ allStatuses
      → (validateStatusTransition "accepted" "reviewed").valid = false)
    ∧ (("accepted" : String) = "reviewed"
      → (validateStatusTransition "accepted" "reviewed").valid = true)
    ∧ (("reviewed" : String) ∈ allStatuses
      → ((validateStatusTransition "accepted" "reviewed").valid = true
          ↔ (("accepted" : String) ≠ "accepted" ∨ ("reviewed" : String) = "accepted"
              ∨ ("reviewed" : String) = "rejected"))) :=
  application_status_transitions "accepted" "reviewed" (by decide)

end EdufleetV2
